import Mathlib

/-!
Shallow embedding of `ci/generate-workflows.py` from wez/wezterm.

Python values that can appear as YAML scalars are modelled by `Value`;
strings are Lean `String`s (the file is pure ASCII), dictionaries are
association lists preserving insertion order, and the single fallible
operation in the generator (the `in` test on a possibly-`None` container
in `Target.install_curl`) is modelled in the `Except PyErr` monad.
-/

/-- Python scalar values fed to the YAML scalar renderer `yv`:
strings, ints, booleans and `None`. -/
inductive Value where
  | vStr (s : String)
  | vInt (n : Int)
  | vBool (b : Bool)
  | vNone
deriving DecidableEq, Repr

/-- Python `str(v)` as used by f-string interpolation on the values
that occur in the generator. -/
def pyStr : Value → String
  | .vStr s => s
  | .vInt n => toString n
  | .vBool true => "True"
  | .vBool false => "False"
  | .vNone => "None"

/-- `"  " * depth`, the indentation unit used throughout the generator. -/
def indentOf (depth : Nat) : String :=
  String.join (List.replicate depth "  ")

/-- Split a character list at newline characters (helper for
Python `str.splitlines`). Always returns a non-empty list. -/
def splitOnNl : List Char → List (List Char)
  | [] => [[]]
  | c :: rest =>
    match splitOnNl rest with
    | [] => []
    | h :: t => if c = '\n' then [] :: h :: t else (c :: h) :: t

/-- Python `str.splitlines()` restricted to `\n` line boundaries (the
only line boundary occurring in the generator's strings): splits at
newlines, discarding one trailing empty fragment, so that
`"a\n".splitlines() = ["a"]` and `"".splitlines() = []`. -/
def pySplitlines (s : String) : List String :=
  let parts := (splitOnNl s.data).map (fun l => String.mk l)
  if parts.getLast? = some "" then parts.dropLast else parts

/-- `needle` occurs as a contiguous sublist of `hay`. -/
def listIsInfixOf (needle : List Char) : List Char → Bool
  | [] => needle.isEmpty
  | c :: rest => needle.isPrefixOf (c :: rest) || listIsInfixOf needle rest

/-- Python `needle in hay` for strings: substring containment. -/
def strContains (hay needle : String) : Bool :=
  listIsInfixOf needle.data hay.data

/-- `yv(v, depth=0)`: the YAML scalar renderer of the generator.
Booleans map to `true`/`false`, `None` to `nil`; a string containing a
newline becomes a block scalar introduced by `|` whose non-empty lines
are prefixed with `"  " * depth`; a string containing a double quote is
single-quoted; any other string is double-quoted; non-string,
non-boolean, non-`None` values pass through unchanged. -/
def yv (v : Value) (depth : Nat) : Value :=
  match v with
  | .vBool true => .vStr "true"
  | .vBool false => .vStr "false"
  | .vNone => .vStr "nil"
  | .vStr s =>
    if s.data.contains '\n' then
      let indent := indentOf depth
      let result := (pySplitlines s).foldl
        (fun r l => r ++ "\n" ++ (if l.isEmpty then "" else indent ++ l)) ""
      .vStr ("|" ++ result)
    else if s.data.contains '"' then
      .vStr ("'" ++ s ++ "'")
    else
      .vStr ("\"" ++ s ++ "\"")
  | v => v

/-- Concatenation of a list of strings (closed form used to state what
the block-scalar fold computes). -/
def concatAll : List String → String
  | [] => ""
  | s :: rest => s ++ concatAll rest

/-- The one Python exception the generator can raise: the `TypeError`
from `"centos:stream9" in self.container` when `container` is `None`. -/
inductive PyErr where
  | typeError
deriving DecidableEq, Repr

/-- Python truthiness of an optional string (`None` and `""` are falsy). -/
def pyTruthy : Option String → Bool
  | none => false
  | some s => !s.isEmpty

/-- Python `needle in hay` where `hay` may be `None`: raises `TypeError`
on `None`, otherwise tests substring containment. -/
def pyInOpt (needle : String) : Option String → Except PyErr Bool
  | none => .error .typeError
  | some s => .ok (strContains s needle)

/-- A CI step: either a `RunStep` (shell command) or an `ActionStep`
(reusable action invocation; `CacheStep`, `SccacheStep`, `CheckoutStep`
and `InstallCrateStep` are `ActionStep`s with fixed parameters). -/
inductive Step where
  | runS (name : String) (run : String) (shell : String)
      (env : List (String × String)) (condition : Option String)
  | actionS (name : String) (action : String)
      (params : List (String × Value)) (env : List (String × Value))
      (condition : Option String) (id : Option String)
deriving DecidableEq, Repr

/-- `RunStep(name, run)` with default `shell="bash"`, no env, no condition. -/
def RunStep (name run : String) : Step := .runS name run "bash" [] none

/-- `RunStep(name, run, shell=shell)`. -/
def RunStepShell (name run shell : String) : Step := .runS name run shell [] none

/-- `RunStep(name, run, env=env)`. -/
def RunStepEnv (name run : String) (env : List (String × String)) : Step :=
  .runS name run "bash" env none

/-- `RunStep(name, run, condition=cond)`. -/
def RunStepCond (name run cond : String) : Step :=
  .runS name run "bash" [] (some cond)

/-- `ActionStep(name, action, params=params)`. -/
def ActionStep (name action : String) (params : List (String × Value)) : Step :=
  .actionS name action params [] none none

/-- `CacheStep(name, path, key, id)`: `actions/cache@v4` with `path` and
`key` parameters. -/
def CacheStep (name path key : String) (id : Option String) : Step :=
  .actionS name "actions/cache@v4"
    [("path", .vStr path), ("key", .vStr key)] [] none id

/-- `SccacheStep(name)`: `mozilla-actions/sccache-action@v0.0.5`. -/
def SccacheStep (name : String) : Step :=
  .actionS name "mozilla-actions/sccache-action@v0.0.5" [] [] none none

/-- `CheckoutStep(...)`: `actions/checkout` pinned to v3 when the
container is a centos7 image, otherwise v4; passes
`submodules: recursive` when submodules are requested. -/
def CheckoutStep (submodules : Bool) (container : Option String) : Step :=
  let params : List (String × Value) :=
    if submodules then [("submodules", .vStr "recursive")] else []
  let version :=
    match container with
    | some c => if strContains c "centos7" then "v3" else "v4"
    | none => "v4"
  .actionS "checkout repo" ("actions/checkout@" ++ version) params [] none none

/-- `InstallCrateStep(crate, key)` (the generator never passes a
version): `baptiste0928/cargo-install@v3`. -/
def InstallCrateStep (crate key : String) : Step :=
  .actionS ("Install " ++ crate ++ " from Cargo")
    "baptiste0928/cargo-install@v3"
    [("crate", .vStr crate), ("cache-key", .vStr key)] [] none none

/-- A CI job: runner label, optional container, ordered steps and an
environment map. -/
structure Job where
  runs_on : String
  container : Option String
  steps : List Step
  env : List (String × String)
deriving DecidableEq, Repr

/-- One build-target descriptor from the catalog. `env` is the mutable
environment dictionary (insertion-ordered) that starts empty. -/
structure Target where
  name : String
  os : String
  container : Option String
  bootstrap_git : Bool
  rust_target : Option String
  continuous_only : Bool
  app_image : Bool
  env : List (String × String)
  is_tag : Bool
deriving DecidableEq, Repr

/-- `name.replace(":", "")`: remove every colon. -/
def stripColons (s : String) : String :=
  String.mk (s.data.filter (fun c => c ≠ ':'))

/-- `Target.__init__`: when the given name is falsy (absent or empty),
derive it from the container when that is truthy, else from the os;
store the name with colons removed and an empty `env`. -/
def Target.make (name : Option String) (os : String) (container : Option String)
    (bootstrap_git : Bool) (rust_target : Option String)
    (continuous_only app_image is_tag : Bool) : Target :=
  let name0 :=
    match name with
    | some n =>
      if n.isEmpty then (if pyTruthy container then container.getD os else os) else n
    | none => if pyTruthy container then container.getD os else os
  ⟨stripColons name0, os, container, bootstrap_git, rust_target,
    continuous_only, app_image, [], is_tag⟩

/-- `dict[k] = v` on an insertion-ordered association list: update in
place when the key exists, else append. -/
def envSet (e : List (String × String)) (k v : String) : List (String × String) :=
  if e.any (fun p => p.1 = k) then
    e.map (fun p => if p.1 = k then (k, v) else p)
  else
    e ++ [(k, v)]

/-- `copy.deepcopy` on a Target: structural copy of every field. -/
def deepcopy (t : Target) : Target :=
  ⟨t.name, t.os, t.container, t.bootstrap_git, t.rust_target,
    t.continuous_only, t.app_image, t.env, t.is_tag⟩

/-- `t.is_tag = b`. -/
def Target.set_is_tag (t : Target) (b : Bool) : Target :=
  ⟨t.name, t.os, t.container, t.bootstrap_git, t.rust_target,
    t.continuous_only, t.app_image, t.env, b⟩

/-- `t.env = e`. -/
def Target.set_env (t : Target) (e : List (String × String)) : Target :=
  ⟨t.name, t.os, t.container, t.bootstrap_git, t.rust_target,
    t.continuous_only, t.app_image, e, t.is_tag⟩

def Target.uses_yum (t : Target) : Bool :=
  strContains t.name "fedora" || strContains t.name "centos"

def Target.uses_apt (t : Target) : Bool :=
  strContains t.name "ubuntu" || strContains t.name "debian"

def Target.uses_apk (t : Target) : Bool :=
  strContains t.name "alpine"

def Target.uses_zypper (t : Target) : Bool :=
  strContains t.name "suse"

def Target.needs_sudo (t : Target) : Bool :=
  !pyTruthy t.container && t.uses_apt

/-- `Target.install_system_package(name)`. -/
def Target.install_system_package (t : Target) (name : String) : List Step :=
  let installer : Option String :=
    if t.uses_yum then some "yum"
    else if t.uses_apt then some "apt-get"
    else if t.uses_apk then some "apk"
    else if t.uses_zypper then some "zypper"
    else none
  match installer with
  | none => []
  | some ins =>
    let ins := if t.needs_sudo then "sudo -n " ++ ins else ins
    if t.uses_apk then
      [RunStep ("Install " ++ name) (ins ++ " add " ++ name)]
    else
      [RunStep ("Install " ++ name) (ins ++ " install -y " ++ name)]

/-- `Target.install_curl`: on yum/apk/zypper families (or containerised
apt) install curl, testing `"centos:stream9" in self.container` --
which raises `TypeError` when the container is `None`. -/
def Target.install_curl (t : Target) : Except PyErr (List Step) :=
  if t.uses_yum || t.uses_apk || t.uses_zypper
      || (t.uses_apt && pyTruthy t.container) then
    match pyInOpt "centos:stream9" t.container with
    | .error e => .error e
    | .ok true => .ok (t.install_system_package "curl-minimal")
    | .ok false => .ok (t.install_system_package "curl")
  else
    .ok []

/-- `Target.install_openssh_server`. -/
def Target.install_openssh_server (t : Target) : List Step :=
  (if t.uses_yum || t.uses_zypper || (t.uses_apt && pyTruthy t.container) then
    [RunStep "Ensure /run/sshd exists" "mkdir -p /run/sshd"]
      ++ t.install_system_package "openssh-server"
  else []) ++
  (if t.uses_apk then t.install_system_package "openssh" else [])

/-- `Target.install_newer_compiler`. -/
def Target.install_newer_compiler (t : Target) : List Step :=
  if t.name = "centos7" then
    [RunStep "Install SCL" "yum install -y centos-release-scl-rh",
     RunStep "Update compiler"
       "yum install -y devtoolset-9-gcc devtoolset-9-gcc-c++"]
  else []

/-- The git version bootstrapped from source. -/
def GIT_VERS : String := "2.26.2"

/-- The package-manager prerequisites line of the bootstrap-git build
script. -/
def Target.git_pre_reqs (t : Target) : String :=
  if t.uses_yum then
    "yum install -y wget curl-devel expat-devel gettext-devel openssl-devel zlib-devel gcc perl-ExtUtils-MakeMaker make"
  else if t.uses_apt then
    "apt-get install -y wget libcurl4-openssl-dev libexpat-dev gettext libssl-dev libz-dev gcc libextutils-autoinstall-perl make"
  else if t.uses_zypper then
    "zypper install -y wget libcurl-devel libexpat-devel gettext-tools libopenssl-devel zlib-devel gcc perl-ExtUtils-MakeMaker make"
  else ""

/-- The cache step of the bootstrap-git path, keyed by
`{name}-git-{GIT_VERS}`. -/
def gitCacheStep (t : Target) : Step :=
  CacheStep "Cache Git installation" "/usr/local/git"
    (t.name ++ "-git-" ++ GIT_VERS) none

/-- The from-source git build step of the bootstrap-git path. -/
def gitSourceStep (t : Target) : Step :=
  RunStep "Install Git from source"
    (t.git_pre_reqs ++ "\nif test ! -x /usr/local/git/bin/git ; then\n    cd /tmp\n    wget https://github.com/git/git/archive/v" ++ GIT_VERS ++ ".tar.gz\n    tar xzf v" ++ GIT_VERS ++ ".tar.gz\n    cd git-" ++ GIT_VERS ++ "\n    make prefix=/usr/local/git install\nfi\nln -s /usr/local/git/bin/git /usr/local/bin/git")

/-- `Target.install_git`: when `bootstrap_git` is set, a cache step
keyed by `{name}-git-{GIT_VERS}` followed by a from-source build step;
otherwise install git from the system package manager (installing
`which` first on tumbleweed). -/
def Target.install_git (t : Target) : List Step :=
  if t.bootstrap_git then
    [gitCacheStep t, gitSourceStep t]
  else
    (if strContains t.name "tumbleweed" then t.install_system_package "which"
     else []) ++ t.install_system_package "git"

/-- `str(x)` for an optional string as interpolated by an f-string:
`None` prints as `"None"`. -/
def optStr : Option String → String
  | some s => s
  | none => "None"

/-- The `key_prefix` computed (but never used) at the top of
`Target.install_rust`: `f"{self.name}-{self.rust_target}-{salt}-..."`
with `salt = "2"`. -/
def Target.unused_rust_key (t : Target) : String :=
  t.name ++ "-" ++ optStr t.rust_target ++ "-2-$\x7b\x7b runner.os \x7d\x7d"

/-- The key of the `Cache Rust Dependencies` step emitted by
`install_rust`: a function of the Cargo lockfile hash only. -/
def rustCargoDepsKey : String :=
  "cargo-deps-$\x7b\x7b hashFiles('**/Cargo.lock') \x7d\x7d"

/-- `Target.install_rust(cache=True, toolchain="stable")`: toolchain
setup (manual rustup on centos7, extra targets on macos, the
`dtolnay/rust-toolchain` action elsewhere), followed, when caching is
enabled, by the sccache step, the vendored-dependency cache step and
the vendoring step. -/
def Target.install_rust (t : Target) (cache : Bool) (toolchain : String) : List Step :=
  let params : List (String × Value) :=
    if pyTruthy t.rust_target then [("target", .vStr (t.rust_target.getD ""))] else []
  let steps :=
    if strContains t.name "centos7" then
      [RunStep "Install Rustup"
         "\nif ! command -v rustup &>/dev/null; then\n  curl --proto '=https' --tlsv1.2 --retry 10 -fsSL \"https://sh.rustup.rs\" | sh -s -- --default-toolchain none -y\n  echo \"$\x7bCARGO_HOME:-$HOME/.cargo\x7d/bin\" >> $GITHUB_PATH\nfi\n",
       RunStep "Setup Toolchain"
         ("\nrustup toolchain install " ++ toolchain
           ++ " --profile minimal --no-self-update\nrustup default "
           ++ toolchain ++ "\n")]
    else if strContains t.name "macos" then
      [RunStep "Install Rust (ARM)" "rustup target add aarch64-apple-darwin",
       RunStep "Install Rust (Intel)" "rustup target add x86_64-apple-darwin"]
    else
      [ActionStep "Install Rust" ("dtolnay/rust-toolchain@" ++ toolchain) params]
  steps ++
    (if cache then
      [SccacheStep "Compile with sccache",
       CacheStep "Cache Rust Dependencies" "vendor\n.cargo/config"
         rustCargoDepsKey (some "cache-cargo-vendor"),
       RunStepCond "Vendor dependecies"
         "cargo vendor --locked --versioned-dirs >> .cargo/config"
         "steps.cache-cargo-vendor.outputs.cache-hit != 'true'"]
     else [])

/-- `Target.install_system_deps`. -/
def Target.install_system_deps (t : Target) : List Step :=
  if strContains t.name "win" then []
  else
    let su := if t.needs_sudo then "sudo -n " else ""
    [RunStep "Install System Deps" (su ++ "env CI=yes PATH=$PATH ./get-deps")]

/-- `Target.fixup_windows_path(cmd)`. -/
def Target.fixup_windows_path (t : Target) (cmd : String) : String :=
  if strContains t.name "win" then
    "PATH C:\\Strawberry\\perl\\bin;%PATH%\n" ++ cmd
  else cmd

def bin_crates : List String :=
  ["wezterm", "wezterm-gui", "wezterm-mux-server", "strip-ansi-escapes"]

/-- `Target.build_all_release`. -/
def Target.build_all_release (t : Target) : List Step :=
  (bin_crates.map (fun bin =>
    if strContains t.name "win" then
      [RunStepShell ("Build " ++ bin ++ " (Release mode)")
        (t.fixup_windows_path ("cargo build -p " ++ bin ++ " --release")) "cmd"]
    else if strContains t.name "macos" then
      [RunStep ("Build " ++ bin ++ " (Release mode Intel)")
        ("cargo build --target x86_64-apple-darwin -p " ++ bin ++ " --release"),
       RunStep ("Build " ++ bin ++ " (Release mode ARM)")
        ("cargo build --target aarch64-apple-darwin -p " ++ bin ++ " --release")]
    else
      let enable :=
        if t.name = "centos7" then "source /opt/rh/devtoolset-9/enable && " else ""
      [RunStep ("Build " ++ bin ++ " (Release mode)")
        (enable ++ "cargo build -p " ++ bin ++ " --release")])).flatten

/-- `Target.test_all`. -/
def Target.test_all (t : Target) : List Step :=
  let run := "cargo nextest run --all --no-fail-fast"
  let run :=
    if strContains t.name "macos" then run ++ " --target=x86_64-apple-darwin" else run
  let run :=
    if t.name = "centos7" then "source /opt/rh/devtoolset-9/enable\n" ++ run else run
  [InstallCrateStep "cargo-nextest" t.name,
   if strContains t.name "win" then
     RunStepShell "Test" (t.fixup_windows_path run) "cmd"
   else
     RunStep "Test" run]

/-- `Target.package(trusted=False)`. -/
def Target.package (t : Target) (trusted : Bool) : List Step :=
  let deploy_env : List (String × String) :=
    if trusted && strContains t.name "mac" then
      [("MACOS_CERT", "$\x7b\x7b secrets.MACOS_CERT \x7d\x7d"),
       ("MACOS_CERT_PW", "$\x7b\x7b secrets.MACOS_CERT_PW \x7d\x7d"),
       ("MACOS_TEAM_ID", "$\x7b\x7b secrets.MACOS_TEAM_ID \x7d\x7d"),
       ("MACOS_APPLEID", "$\x7b\x7b secrets.MACOS_APPLEID \x7d\x7d"),
       ("MACOS_APP_PW", "$\x7b\x7b secrets.MACOS_APP_PW \x7d\x7d")]
    else []
  [RunStepEnv "Package" "bash ci/deploy.sh" deploy_env]
    ++ (if t.app_image then
          t.install_system_package "libfuse2"
            ++ [RunStep "Source Tarball" "bash ci/source-archive.sh",
                RunStep "Build AppImage" "bash ci/appimage.sh"]
        else [])

/-- `Target.asset_patterns`. -/
def Target.asset_patterns (t : Target) : List String :=
  (if t.uses_yum || t.uses_zypper then ["wezterm-*.rpm"]
   else if strContains t.name "win" then ["WezTerm-*.zip", "WezTerm-*.exe"]
   else if strContains t.name "mac" then ["WezTerm-*.zip"]
   else if strContains t.name "ubuntu" || strContains t.name "debian" then
     ["wezterm-*.deb", "wezterm-*.xz"]
   else if strContains t.name "alpine" then
     ["wezterm-*.apk"] ++ (if t.is_tag then ["*.pub"] else [])
   else [])
  ++ (if t.app_image then ["*src.tar.gz", "*.AppImage", "*.zsync"] else [])

/-- Python `sep.join(parts)`. -/
def joinSep (sep : String) : List String → String
  | [] => ""
  | [s] => s
  | s :: rest => s ++ sep ++ joinSep sep rest

/-- `Target.upload_artifact`. -/
def Target.upload_artifact (t : Target) : List Step :=
  (if t.uses_yum then [RunStep "Move RPM" "mv ~/rpmbuild/RPMS/*/*.rpm ."]
   else if t.uses_apk then
     [RunStep "Rename APKs"
        ("mv ~/packages/wezterm/x86_64/*.apk $(echo ~/packages/wezterm/x86_64/*.apk | sed -e 's/wezterm-/wezterm-"
          ++ t.name ++ "-/')"),
      RunStep "Move APKs" "mv ~/packages/wezterm/x86_64/*.apk .",
      RunStep "Move APK keys" ("mv ~/.abuild/*.pub wezterm-" ++ t.name ++ ".pub")]
   else if t.uses_zypper then
     [RunStep "Move RPM" "mv /usr/src/packages/RPMS/*/*.rpm ."]
   else [])
  ++ [ActionStep "Upload artifact" "actions/upload-artifact@v4"
        [("name", .vStr t.name),
         ("path", .vStr (joinSep "\n" t.asset_patterns))]]

/-- `Target.upload_artifact_nightly`. -/
def Target.upload_artifact_nightly (t : Target) : List Step :=
  (if t.uses_yum then
     [RunStep "Move RPM"
       ("mv ~/rpmbuild/RPMS/*/*.rpm wezterm-nightly-" ++ t.name ++ ".rpm")]
   else if t.uses_apk then
     [RunStep "Move APKs"
       ("mv ~/packages/wezterm/x86_64/*.apk wezterm-nightly-" ++ t.name ++ ".apk")]
   else if t.uses_zypper then
     [RunStep "Move RPM"
       ("mv /usr/src/packages/RPMS/*/*.rpm wezterm-nightly-" ++ t.name ++ ".rpm")]
   else [])
  ++ [ActionStep "Upload artifact" "actions/upload-artifact@v4"
        [("name", .vStr t.name),
         ("path", .vStr (joinSep "\n" t.asset_patterns)),
         ("retention-days", .vInt 5)]]

/-- `Target.upload_asset_nightly`. -/
def Target.upload_asset_nightly (t : Target) : List Step :=
  let patterns := t.asset_patterns
  let checksum := RunStep "Checksum"
    ("for f in " ++ joinSep " " patterns ++ " ; do sha256sum $f > $f.sha256 ; done")
  let patterns := patterns ++ ["*.sha256"]
  let glob := joinSep " " patterns
  let steps : List Step :=
    if t.container = some "ubuntu:22.04" then
      [RunStepEnv "Upload to gemfury"
        "for f in wezterm*.deb ; do curl -i -F package=@$f https://$FURY_TOKEN@push.fury.io/wez/ ; done"
        [("FURY_TOKEN", "$\x7b\x7b secrets.FURY_TOKEN \x7d\x7d")]]
    else []
  [ActionStep "Download artifact" "actions/download-artifact@v4"
     [("name", .vStr t.name)],
   checksum,
   RunStepEnv "Upload to Nightly Release"
     ("bash ci/retry.sh gh release upload --clobber nightly " ++ glob)
     [("GITHUB_TOKEN", "$\x7b\x7b secrets.GITHUB_TOKEN \x7d\x7d")]]
  ++ steps

/-- `Target.upload_asset_tag`. -/
def Target.upload_asset_tag (t : Target) : List Step :=
  let patterns := t.asset_patterns
  let checksum := RunStep "Checksum"
    ("for f in " ++ joinSep " " patterns ++ " ; do sha256sum $f > $f.sha256 ; done")
  let patterns := patterns ++ ["*.sha256"]
  let glob := joinSep " " patterns
  let steps : List Step :=
    if t.container = some "ubuntu:22.04" then
      [RunStepEnv "Upload to gemfury"
        "for f in wezterm*.deb ; do curl -i -F package=@$f https://$FURY_TOKEN@push.fury.io/wez/ ; done"
        [("FURY_TOKEN", "$\x7b\x7b secrets.FURY_TOKEN \x7d\x7d")]]
    else []
  steps
  ++ [ActionStep "Download artifact" "actions/download-artifact@v4"
        [("name", .vStr t.name)],
      checksum,
      RunStepEnv "Create pre-release"
        "bash ci/retry.sh bash ci/create-release.sh $(ci/tag-name.sh)"
        [("GITHUB_TOKEN", "$\x7b\x7b secrets.GITHUB_TOKEN \x7d\x7d")],
      RunStepEnv "Upload to Tagged Release"
        ("bash ci/retry.sh gh release upload --clobber $(ci/tag-name.sh) " ++ glob)
        [("GITHUB_TOKEN", "$\x7b\x7b secrets.GITHUB_TOKEN \x7d\x7d")]]

/-- `Target.create_flathub_pr`. -/
def Target.create_flathub_pr (t : Target) : List Step :=
  if !t.app_image then []
  else
    [ActionStep "Checkout flathub/org.wezfurlong.wezterm" "actions/checkout@v4"
       [("repository", .vStr "flathub/org.wezfurlong.wezterm"),
        ("path", .vStr "flathub"),
        ("token", .vStr "$\x7b\x7b secrets.GH_PAT \x7d\x7d")],
     RunStep "Create flathub commit and push" "bash ci/make-flathub-pr.sh",
     RunStepEnv "Submit PR"
       "cd flathub && gh pr create --fill --body \"PR automatically created by release automation in the wezterm repo\""
       [("GITHUB_TOKEN", "$\x7b\x7b secrets.GH_PAT \x7d\x7d")]]

/-- `Target.create_winget_pr`. -/
def Target.create_winget_pr (t : Target) : List Step :=
  if strContains t.name "windows" then
    [ActionStep "Checkout winget-pkgs" "actions/checkout@v4"
       [("repository", .vStr "wez/winget-pkgs"),
        ("path", .vStr "winget-pkgs"),
        ("token", .vStr "$\x7b\x7b secrets.GH_PAT \x7d\x7d")],
     RunStep "Setup email for winget repo"
       "cd winget-pkgs && git config user.email wez@wezfurlong.org",
     RunStep "Setup name for winget repo"
       "cd winget-pkgs && git config user.name 'Wez Furlong'",
     RunStep "Create winget manifest and push to fork"
       "bash ci/make-winget-pr.sh winget-pkgs WezTerm-*.exe",
     RunStepEnv "Submit PR"
       "cd winget-pkgs && gh pr create --fill --body \"PR automatically created by release automation in the wezterm repo\""
       [("GITHUB_TOKEN", "$\x7b\x7b secrets.GH_PAT \x7d\x7d")]]
  else []

/-- `Target.update_homebrew_tap`. -/
def Target.update_homebrew_tap (t : Target) : List Step :=
  if strContains t.name "macos" then
    [ActionStep "Checkout homebrew tap" "actions/checkout@v4"
       [("repository", .vStr "wez/homebrew-wezterm"),
        ("path", .vStr "homebrew-wezterm"),
        ("token", .vStr "$\x7b\x7b secrets.GH_PAT \x7d\x7d")],
     RunStep "Update homebrew tap formula"
       "cp wezterm.rb homebrew-wezterm/Casks/wezterm.rb",
     ActionStep "Commit homebrew tap changes"
       "stefanzweifel/git-auto-commit-action@v5"
       [("commit_message", .vStr "Automated update to match latest tag"),
        ("repository", .vStr "homebrew-wezterm")]]
  else if t.app_image then
    [ActionStep "Checkout linuxbrew tap" "actions/checkout@v4"
       [("repository", .vStr "wez/homebrew-wezterm-linuxbrew"),
        ("path", .vStr "linuxbrew-wezterm"),
        ("token", .vStr "$\x7b\x7b secrets.GH_PAT \x7d\x7d")],
     RunStep "Update linuxbrew tap formula"
       "cp wezterm-linuxbrew.rb linuxbrew-wezterm/Formula/wezterm.rb",
     ActionStep "Commit linuxbrew tap changes"
       "stefanzweifel/git-auto-commit-action@v5"
       [("commit_message", .vStr "Automated update to match latest tag"),
        ("repository", .vStr "linuxbrew-wezterm")]]
  else []

/-- `Target.global_env`: populate the shared environment map (mutates
and also returns the target's env in the source; here returns the
updated target). -/
def Target.global_env (t : Target) : Target :=
  let e := envSet t.env "CARGO_INCREMENTAL" "0"
  let e := envSet e "SCCACHE_GHA_ENABLED" "true"
  let e := envSet e "RUSTC_WRAPPER" "sccache"
  let e := if strContains t.name "macos" then
      envSet e "MACOSX_DEPLOYMENT_TARGET" "10.9" else e
  let e := if strContains t.name "alpine" then
      envSet e "RUSTFLAGS" "-C target-feature=-crt-static" else e
  let e := if strContains t.name "win" then
      envSet e "RUSTUP_WINDOWS_PATH_ADD_BIN" "1" else e
  t.set_env e

/-- `Target.checkout(submodules=True)`. -/
def Target.checkout (t : Target) (submodules : Bool) : List Step :=
  (if pyTruthy t.container then
    [RunStep "Workaround git permissions issue"
      "git config --global --add safe.directory /__w/wezterm/wezterm"]
   else []) ++ [CheckoutStep submodules t.container]

/-- The apt-family preamble of `prep_environment` (non-interactive
debconf inside a container, then `apt update`). -/
def Target.prep_apt_pre (t : Target) : List Step :=
  if t.uses_apt then
    (if pyTruthy t.container then
      [RunStep "set APT to non-interactive"
        "echo 'debconf debconf/frontend select Noninteractive' | debconf-set-selections"]
     else [])
    ++ [RunStep "Update APT"
          ((if t.needs_sudo then "sudo -n " else "") ++ "apt update")]
  else []

/-- The zypper-family preamble of `prep_environment`. -/
def Target.prep_zypper_pre (t : Target) : List Step :=
  if t.uses_zypper then
    if pyTruthy t.container then
      [RunStep "Seed GITHUB_PATH to work around possible @action/core bug"
        "echo \"$PATH:/bin:/usr/bin\" >> $GITHUB_PATH",
       RunStep "Install util-linux" "zypper install -y util-linux"]
    else []
  else []

/-- The container-specific preamble of `prep_environment` (dnf config
manager, PowerTools/CRB repos, alpine bootstrap, opensuse tar). -/
def Target.prep_container_pre (t : Target) : List Step :=
  match t.container with
  | none => []
  | some c =>
    if c.isEmpty then []
    else
      (if strContains c "fedora"
          || (strContains c "centos" && !strContains c "centos7") then
        [RunStep "Install config manager"
          "dnf install -y 'dnf-command(config-manager)'"]
       else [])
      ++ (if strContains c "centos:stream8" then
            [RunStep "Enable PowerTools"
              "dnf config-manager --set-enabled powertools"]
          else [])
      ++ (if strContains c "centos:stream9" then
            [RunStep "Enable CRB repo for X bits"
              "dnf config-manager --set-enabled crb"]
          else [])
      ++ (if strContains c "alpine" then
            [RunStepShell "Upgrade system" "apk upgrade --update-cache" "sh",
             RunStepShell "Install CI dependencies"
               "apk add nodejs zstd wget bash coreutils tar findutils" "sh",
             RunStep "Allow root login" "sed 's/root:!/root:*/g' -i /etc/shadow"]
          else [])
      ++ (if strContains c "opensuse" then
            [RunStep "Install tar" "zypper install -yl tar gzip"]
          else [])

/-- The second `apt update` of `prep_environment` (containerised apt
targets only). -/
def Target.prep_apt_post (t : Target) : List Step :=
  if t.uses_apt then
    if pyTruthy t.container then
      [RunStep "Update APT"
        ((if t.needs_sudo then "sudo -n " else "") ++ "apt update")]
    else []
  else []

/-- `Target.prep_environment`: the common prefix of every build job.
Fallible because `install_curl` is. -/
def Target.prep_environment (t : Target) : Except PyErr (List Step) :=
  match t.install_curl with
  | .error e => .error e
  | .ok curl =>
    .ok (t.prep_apt_pre ++ t.prep_zypper_pre ++ t.prep_container_pre
      ++ t.install_newer_compiler ++ t.install_git ++ curl ++ t.prep_apt_post
      ++ t.install_openssh_server ++ t.checkout true
      ++ t.install_rust true "stable" ++ t.install_system_deps)

/-- `Target.pull_request`: build job plus `None` uploader. The third
component is the target as left by the method (no mutation here). -/
def Target.pull_request (t : Target) : Except PyErr (Job × Option Job × Target) :=
  match t.prep_environment with
  | .error e => .error e
  | .ok prep =>
    let steps := prep ++ t.build_all_release ++ t.test_all
      ++ t.package false ++ t.upload_artifact
    .ok (⟨t.os, t.container, steps, t.env⟩, none, t)

/-- `Target.continuous`: build job plus nightly uploader job; sets
`env["BUILD_REASON"] = "Schedule"` on the target. -/
def Target.continuous (t : Target) : Except PyErr (Job × Option Job × Target) :=
  match t.prep_environment with
  | .error e => .error e
  | .ok prep =>
    let steps := prep ++ t.build_all_release ++ t.test_all
      ++ t.package true ++ t.upload_artifact_nightly
    let t := t.set_env (envSet t.env "BUILD_REASON" "Schedule")
    let uploader : Job :=
      ⟨"ubuntu-latest", none, t.checkout false ++ t.upload_asset_nightly, []⟩
    .ok (⟨t.os, t.container, steps, t.env⟩, some uploader, t)

/-- `Target.tag`: build job (with homebrew-tap update) plus tagged
uploader job (release upload, winget and flathub PRs). -/
def Target.tag (t : Target) : Except PyErr (Job × Option Job × Target) :=
  match t.prep_environment with
  | .error e => .error e
  | .ok prep =>
    let steps := prep ++ t.build_all_release ++ t.test_all
      ++ t.package true ++ t.upload_artifact ++ t.update_homebrew_tap
    let uploader : Job :=
      ⟨"ubuntu-latest", none,
        t.checkout false ++ t.upload_asset_tag
          ++ t.create_winget_pr ++ t.create_flathub_pr, []⟩
    .ok (⟨t.os, t.container, steps, t.env⟩, some uploader, t)

/-- The static target catalog (`TARGETS`). -/
def TARGETS : List Target := [
  Target.make none "ubuntu-latest" (some "ubuntu:20.04") false none true true false,
  Target.make none "ubuntu-latest" (some "ubuntu:22.04") false none true false false,
  Target.make none "ubuntu-latest" (some "ubuntu:24.04") false none true false false,
  Target.make none "ubuntu-latest" (some "debian:10.3") false none true false false,
  Target.make none "ubuntu-latest" (some "debian:11") false none true false false,
  Target.make none "ubuntu-latest" (some "debian:12") false none true false false,
  Target.make (some "centos9") "ubuntu-latest" (some "quay.io/centos/centos:stream9")
    false none false false false,
  Target.make (some "macos") "macos-latest" none false none false false false,
  Target.make none "ubuntu-latest" (some "fedora:38") false none false false false,
  Target.make none "ubuntu-latest" (some "fedora:39") false none false false false,
  Target.make none "ubuntu-latest" (some "fedora:40") false none false false false,
  Target.make (some "windows") "windows-latest" none false
    (some "x86_64-pc-windows-msvc") false false false]

/-- The `id:` field of a step, when present. -/
def Step.step_id : Step → Option String
  | .runS _ _ _ _ _ => none
  | .actionS _ _ _ _ _ i => i

/-- The `key` parameter of the `cache-cargo-vendor` cache step emitted
by `install_rust` (with caching enabled), when such a step exists. -/
def rustCacheKeyOf (t : Target) (toolchain : String) : Option Value :=
  match (t.install_rust true toolchain).find?
      (fun s => s.step_id == some "cache-cargo-vendor") with
  | some (.actionS _ _ params _ _ _) => params.lookup "key"
  | _ => none

/-- The `ubuntu:20.04` catalog entry. -/
def targetUbuntu2004 : Target :=
  Target.make none "ubuntu-latest" (some "ubuntu:20.04") false none true true false

/-- The `windows` catalog entry. -/
def targetWindows : Target :=
  Target.make (some "windows") "windows-latest" none false
    (some "x86_64-pc-windows-msvc") false false false

/-- Steps that publish a release or update a downstream tap/manifest:
everything emitted by `update_homebrew_tap`, `create_winget_pr`,
`create_flathub_pr`, `upload_asset_nightly` and `upload_asset_tag`. -/
def publish_steps (t : Target) : List Step :=
  t.update_homebrew_tap ++ t.create_winget_pr ++ t.create_flathub_pr
    ++ t.upload_asset_nightly ++ t.upload_asset_tag

/-- `pull_request` yields a build job containing none of the publishing
steps, and no separate uploader job. -/
def pr_has_no_publish (t : Target) : Bool :=
  match t.pull_request with
  | .ok (job, uploader, _) =>
    uploader.isNone && job.steps.all (fun s => !((publish_steps t).contains s))
  | .error _ => false

instance exceptDecEq {ε α : Type} [DecidableEq ε] [DecidableEq α] :
    DecidableEq (Except ε α) := fun x y =>
  match x, y with
  | .ok a, .ok b =>
    if h : a = b then isTrue (by rw [h])
    else isFalse (by intro he; cases he; exact h rfl)
  | .error a, .error b =>
    if h : a = b then isTrue (by rw [h])
    else isFalse (by intro he; cases he; exact h rfl)
  | .ok _, .error _ => isFalse (by intro he; cases he)
  | .error _, .ok _ => isFalse (by intro he; cases he)

/-- The steps of `prep_environment` before `install_git`. -/
def Target.prep_before_git (t : Target) : List Step :=
  t.prep_apt_pre ++ t.prep_zypper_pre ++ t.prep_container_pre
    ++ t.install_newer_compiler

/-- The steps of `prep_environment` strictly between the bootstrap-git
cache step and the checkout step. -/
def Target.prep_between_git_and_checkout (t : Target) (curl : List Step) :
    List Step :=
  gitSourceStep t
    :: (curl ++ t.prep_apt_post ++ t.install_openssh_server
      ++ (if pyTruthy t.container then
            [RunStep "Workaround git permissions issue"
              "git config --global --add safe.directory /__w/wezterm/wezterm"]
          else []))

/-- The steps of `prep_environment` after the checkout step. -/
def Target.prep_after_checkout (t : Target) : List Step :=
  t.install_rust true "stable" ++ t.install_system_deps

/-- The `debian:8.11` bootstrap-git target (the commented-out catalog
shape that exercises `bootstrap_git=True`). -/
def targetDebian8 : Target :=
  Target.make none "ubuntu-latest" (some "debian:8.11") true none true false false

/-- Code-point lexicographic order on character lists (Python string
comparison). -/
def charListLe : List Char → List Char → Bool
  | [], _ => true
  | _ :: _, [] => false
  | a :: as, b :: bs => if a = b then charListLe as bs else decide (a < b)

/-- Insert into a key-sorted association list. -/
def insertSortedKV (p : String × String) :
    List (String × String) → List (String × String)
  | [] => [p]
  | q :: rest =>
    if charListLe p.1.data q.1.data then p :: q :: rest
    else q :: insertSortedKV p rest

/-- Python `sorted` over dict keys (keys are distinct). -/
def sortByKey : List (String × String) → List (String × String)
  | [] => []
  | p :: rest => insertSortedKV p (sortByKey rest)

/-- Insert into a sorted string list. -/
def insertSortedStr (s : String) : List String → List String
  | [] => [s]
  | x :: rest =>
    if charListLe s.data x.data then s :: x :: rest
    else x :: insertSortedStr s rest

/-- Python `sorted` over a list of strings. -/
def sortStrings : List String → List String
  | [] => []
  | s :: rest => insertSortedStr s (sortStrings rest)

/-- `Step.render(f, depth)` for both step kinds, as the string written
to the file. `RunStep` renders name, optional `if:`, sorted raw `env:`,
`shell:` and `run:` (the run scalar at `depth + 2`); `ActionStep`
renders name, `uses:`, optional `id:`/`if:`, `with:` and `env:` (scalar
values at `depth + 3`). -/
def Step.render (s : Step) (depth : Nat) : String :=
  let indent := indentOf depth
  match s with
  | .runS name run shell env condition =>
    indent ++ "- name: " ++ pyStr (yv (.vStr name) 0) ++ "\n"
    ++ (match condition with
        | some c => if c.isEmpty then "" else indent ++ "  if: " ++ c ++ "\n"
        | none => "")
    ++ (if env.isEmpty then ""
        else indent ++ "  env:\n"
          ++ concatAll ((sortByKey env).map
              (fun kv => indent ++ "    " ++ kv.1 ++ ": " ++ kv.2 ++ "\n")))
    ++ (if shell.isEmpty then "" else indent ++ "  shell: " ++ shell ++ "\n")
    ++ indent ++ "  run: " ++ pyStr (yv (.vStr run) (depth + 2)) ++ "\n"
  | .actionS name action params env condition id =>
    indent ++ "- name: " ++ pyStr (yv (.vStr name) 0) ++ "\n"
    ++ indent ++ "  uses: " ++ action ++ "\n"
    ++ (match id with
        | some i => if i.isEmpty then "" else indent ++ "  id: " ++ i ++ "\n"
        | none => "")
    ++ (match condition with
        | some c => if c.isEmpty then "" else indent ++ "  if: " ++ c ++ "\n"
        | none => "")
    ++ (if params.isEmpty then ""
        else indent ++ "  with:\n"
          ++ concatAll (params.map
              (fun kv => indent ++ "    " ++ kv.1 ++ ": "
                ++ pyStr (yv kv.2 (depth + 3)) ++ "\n")))
    ++ (if env.isEmpty then ""
        else indent ++ "  env:\n"
          ++ concatAll (env.map
              (fun kv => indent ++ "    " ++ kv.1 ++ ": "
                ++ pyStr (yv kv.2 (depth + 3)) ++ "\n")))

/-- `Job.render(f, depth)`: the fixed `steps:` header followed by every
step rendered at `depth`. -/
def Job.render (j : Job) (depth : Nat) : String :=
  "\n    steps:\n" ++ concatAll (j.steps.map (fun s => s.render depth))

/-- `Target.render_env(f)`: applies `global_env` and renders the env
block at four-space indentation (scalar values at depth 3). -/
def Target.render_env (t : Target) : String :=
  let t := t.global_env
  if t.env.isEmpty then ""
  else
    "    env:\n"
      ++ concatAll (t.env.map
          (fun kv => "      " ++ kv.1 ++ ": "
            ++ pyStr (yv (.vStr kv.2) 3) ++ "\n"))

/-- Python `str.replace`: replace every (non-overlapping, leftmost)
occurrence of `pat`. -/
def replaceAux (pat rep : List Char) : List Char → List Char
  | [] => []
  | c :: rest =>
    if h : pat.isPrefixOf (c :: rest) = true ∧ pat ≠ [] then
      rep ++ replaceAux pat rep ((c :: rest).drop pat.length)
    else
      c :: replaceAux pat rep rest
termination_by l => l.length
decreasing_by
  · have hp : 0 < pat.length := List.length_pos.mpr h.2
    simp only [List.length_drop, List.length_cons]
    omega
  · simp only [List.length_cons]
    omega

/-- Python `s.replace(pat, rep)` on strings. -/
def pyReplace (s pat rep : String) : String :=
  String.mk (replaceAux pat.data rep.data s.data)

def TRIGGER_PATHS : List String :=
  ["**/*.rs", "**/Cargo.lock", "**/Cargo.toml", "assets/fonts/**/*",
   "assets/icon/*", "ci/deploy.sh"]

def TRIGGER_PATHS_APPIMAGE : List String :=
  ["ci/appimage.sh", "ci/appstreamcli", "ci/source-archive.sh"]

def TRIGGER_PATHS_UNIX : List String :=
  ["assets/open-wezterm-here", "assets/shell-completion/**/*",
   "assets/shell-integration/**/*", "assets/wezterm-nautilus.py",
   "assets/wezterm.appdata.xml", "assets/wezterm.desktop", "get-deps",
   "ci/tag-name.sh", "termwiz/data/wezterm.terminfo"]

def TRIGGER_PATHS_MAC : List String :=
  ["assets/macos/**/*", "ci/macos-entitlement.plist", "get-deps",
   "ci/tag-name.sh"]

def TRIGGER_PATHS_WIN : List String :=
  ["assets/windows/**/*", "ci/windows-installer.iss"]

/-- The body of the `generate_actions` loop for one catalog entry:
clone the target, set `is_tag`, compute the workflow name and file
name, run the jobber, compute the trigger path list (sorted) and the
container clause, and assemble the file content. Returns the
`(file_name, content)` pair. -/
def processOne (namer : Target → String)
    (jobber : Target → Except PyErr (Job × Option Job × Target))
    (trigger : String) (is_tag : Bool) (t0 : Target) :
    Except PyErr (String × String) :=
  let t := deepcopy t0
  let t := t.set_is_tag is_tag
  let name := stripColons (namer t)
  match jobber t with
  | .error e => .error e
  | .ok (job, uploader, t2) =>
    let file_name := ".github/workflows/gen_" ++ name ++ ".yml"
    let container :=
      match job.container with
      | some c =>
        if c.isEmpty then ""
        else if t.app_image then
          "container:\n      image: " ++ pyStr (yv (.vStr c) 0)
            ++ "\n      options: --privileged"
        else "container: " ++ pyStr (yv (.vStr c) 0)
      | none => ""
    let trigger_paths := (file_name :: TRIGGER_PATHS)
      ++ (if strContains name "win" then TRIGGER_PATHS_WIN
          else if strContains name "macos" then TRIGGER_PATHS_MAC
          else TRIGGER_PATHS_UNIX)
      ++ (if t.app_image then TRIGGER_PATHS_APPIMAGE else [])
    let trigger_paths_str := "- " ++ joinSep "\n      - "
      ((sortStrings trigger_paths).map (fun p => pyStr (yv (.vStr p) 0)))
    let trigger_with_paths := pyReplace trigger "@PATHS@" trigger_paths_str
    let content :=
      "name: " ++ name ++ "\n" ++ trigger_with_paths
        ++ "\njobs:\n  build:\n    runs-on: " ++ pyStr (yv (.vStr job.runs_on) 0)
        ++ "\n    " ++ container ++ "\n"
      ++ t2.render_env
      ++ job.render 3
      ++ (match uploader with
          | some up =>
            "\n  upload:\n    runs-on: ubuntu-latest\n    needs: build\n"
              ++ up.render 3
          | none => "")
    .ok (file_name, content)

/-- `generate_actions`: run the loop body over the catalog. -/
def generate_actions (namer : Target → String)
    (jobber : Target → Except PyErr (Job × Option Job × Target))
    (trigger : String) (is_tag : Bool) (targets : List Target) :
    Except PyErr (List (String × String)) :=
  targets.mapM (processOne namer jobber trigger is_tag)

def prTrigger : String :=
  "\non:\n  pull_request:\n    branches:\n      - main\n    paths:\n      @PATHS@\n"

def contTrigger : String :=
  "\non:\n  schedule:\n    - cron: \"10 3 * * *\"\n  push:\n    branches:\n      - main\n    paths:\n      @PATHS@\n"

def tagTrigger : String :=
  "\non:\n  push:\n    tags:\n      - \"20*\"\n"

/-- `generate_pr_actions()`. -/
def generate_pr_actions : Except PyErr (List (String × String)) :=
  generate_actions (fun t => t.name) Target.pull_request prTrigger false TARGETS

/-- `continuous_actions()`. -/
def continuous_actions : Except PyErr (List (String × String)) :=
  generate_actions (fun t => t.name ++ "_continuous") Target.continuous
    contTrigger false TARGETS

/-- `tag_actions()`. -/
def tag_actions : Except PyErr (List (String × String)) :=
  generate_actions (fun t => t.name ++ "_tag") Target.tag tagTrigger true TARGETS

/-- All files produced by one full generation run (pull-request pass,
then continuous, then tag). -/
def genAll : Except PyErr (List (String × String)) :=
  match generate_pr_actions with
  | .error e => .error e
  | .ok a =>
    match continuous_actions with
    | .error e => .error e
    | .ok b =>
      match tag_actions with
      | .error e => .error e
      | .ok c => .ok (a ++ b ++ c)

/-- The filesystem: a map from path to file content. -/
def FS : Type := String → Option String

/-- Writing one file. -/
def fsWrite (fs : FS) (n c : String) : FS :=
  fun m => if m = n then some c else fs m

/-- Writing a list of files in order. -/
def writeAll (fs : FS) (files : List (String × String)) : FS :=
  files.foldl (fun acc p => fsWrite acc p.1 p.2) fs

def genNamePre : List Char := (".github/workflows/gen_").data

/-- The glob `.github/workflows/gen_*.yml`: the prefix, the `.yml`
suffix, and no `/` in the starred middle. -/
def matchesGenName (n : String) : Bool :=
  let rest := n.data.drop genNamePre.length
  genNamePre.isPrefixOf n.data
    && (".yml").data.isSuffixOf rest
    && !((rest.take (rest.length - 4)).contains '/')

/-- `remove_gen_actions()`: delete every file matching the glob. -/
def remove_gen_actions (fs : FS) : FS :=
  fun m => if matchesGenName m then none else fs m

/-- The module-level main sequence: remove generated files, then write
the pull-request, continuous and tag workflows. -/
def fullRun : Except PyErr (FS → FS) :=
  match genAll with
  | .error e => .error e
  | .ok files => .ok (fun fs => writeAll (remove_gen_actions fs) files)

/-- The output file names the current catalog gives rise to. -/
def expectedNames : List String :=
  (TARGETS.map (fun t => ".github/workflows/gen_" ++ t.name ++ ".yml"))
    ++ (TARGETS.map (fun t =>
          ".github/workflows/gen_" ++ t.name ++ "_continuous.yml"))
    ++ (TARGETS.map (fun t => ".github/workflows/gen_" ++ t.name ++ "_tag.yml"))

/-- `genAll` succeeds and produces exactly the expected file names, in
order. -/
def namesCheck : Bool :=
  match genAll with
  | .ok files => files.map Prod.fst == expectedNames
  | .error _ => false

/-- Per-kind side effects stay on the per-pass clone: for a catalog
entry, the target returned by `pull_request` has no `BUILD_REASON` env
entry and `is_tag = false`; the one returned by `continuous` carries
the `BUILD_REASON` mutation; and the one consumed and returned by the
tag pass (`is_tag = true`) still has no `BUILD_REASON` entry, although
the continuous pass ran before it in the generation sequence. -/
def continuousLeakCheck (t : Target) : Bool :=
  match ((deepcopy t).set_is_tag false).pull_request,
      ((deepcopy t).set_is_tag false).continuous,
      ((deepcopy t).set_is_tag true).tag with
  | .ok (_, _, tp), .ok (_, _, tc), .ok (_, _, tt) =>
    tp.env.all (fun kv => !(kv.1 == "BUILD_REASON"))
      && tc.env.any (fun kv => kv.1 == "BUILD_REASON")
      && tt.env.all (fun kv => !(kv.1 == "BUILD_REASON"))
      && tt.is_tag && !tp.is_tag
  | _, _, _ => false

theorem string_data_append (a b : String) : (a ++ b).data = a.data ++ b.data := by
  cases a; cases b; rfl

theorem string_eq_of_data (a b : String) (h : a.data = b.data) : a = b := by
  cases a; cases b; cases h; rfl

theorem string_append_assoc (a b c : String) : a ++ b ++ c = a ++ (b ++ c) := by
  apply string_eq_of_data
  simp [string_data_append]

theorem string_append_empty (a : String) : a ++ "" = a := by
  apply string_eq_of_data
  simp [string_data_append]

theorem foldl_block_concat (g : String → String) (ls : List String) :
    ∀ acc : String,
      ls.foldl (fun r l => r ++ "\n" ++ g l) acc
        = acc ++ concatAll (ls.map (fun l => "\n" ++ g l)) := by
  induction ls with
  | nil => intro acc; simp [concatAll, string_append_empty]
  | cons x rest ih =>
    intro acc
    simp only [List.foldl, List.map, concatAll]
    rw [ih]
    simp [string_append_assoc]

theorem string_empty_append (a : String) : "" ++ a = a := by
  apply string_eq_of_data
  simp [string_data_append]

/-- C3: the scalar renderer `yv` implements exactly the documented
quoting policy: a string with no newline and no double quote is
double-quoted; a string with a double quote but no newline is
single-quoted; `True` renders as `true`, `False` as `false`, `None` as
`nil`; any other (non-string, non-boolean, non-`None`) value is
returned unchanged. -/
theorem c3_yv_quoting_policy (s : String) (d : Nat) :
    (s.data.contains '\n' = false → s.data.contains '"' = false →
      yv (.vStr s) d = .vStr ("\"" ++ s ++ "\"")) ∧
    (s.data.contains '\n' = false → s.data.contains '"' = true →
      yv (.vStr s) d = .vStr ("'" ++ s ++ "'")) ∧
    yv (.vBool true) d = .vStr "true" ∧
    yv (.vBool false) d = .vStr "false" ∧
    yv .vNone d = .vStr "nil" ∧
    (∀ n : Int, yv (.vInt n) d = .vInt n) := by
  refine ⟨?_, ?_, rfl, rfl, rfl, fun n => rfl⟩ <;> intro h1 h2
  · have h1' : '\n' ∉ s.data := by simpa using h1
    have h2' : '"' ∉ s.data := by simpa using h2
    simp [yv, h1', h2']
  · have h1' : '\n' ∉ s.data := by simpa using h1
    have h2' : '"' ∈ s.data := by simpa using h2
    simp [yv, h1', h2']

/-- Witness for C3 at concrete inputs: `"ab"` has no newline and no
double quote and is double-quoted; `"a\"b"` has a double quote and no
newline and is single-quoted. -/
theorem c3_yv_quoting_policy_witness :
    ("ab" : String).data.contains '\n' = false ∧
    ("ab" : String).data.contains '"' = false ∧
    yv (.vStr "ab") 0 = .vStr "\"ab\"" ∧
    yv (.vStr "a\"b") 0 = .vStr "'a\"b'" :=
  ⟨by decide, by decide,
   (c3_yv_quoting_policy "ab" 0).1 (by decide) (by decide),
   (c3_yv_quoting_policy "a\"b" 0).2.1 (by decide) (by decide)⟩

/-- C2 counterexample: the claim requires every continuation line of
the rendered block scalar to be indented by exactly `2*d` spaces, but
at value `"a\n\nb"` and depth `1` the renderer produces
`"|\n  a\n\n  b"`, whose empty continuation line (from the empty source
line) carries no indentation at all. -/
theorem c2_block_scalar_counterexample :
    ("a\n\nb" : String).data.contains '\n' = true ∧
    ¬ ((((splitOnNl (pyStr (yv (.vStr "a\n\nb") 1)).data).map
          (fun l => String.mk l)).tail).all
        (fun l => (indentOf 1).data.isPrefixOf l.data) = true) := by
  exact ⟨by decide, by decide⟩

/-- C2 (amended): for every string containing a literal newline and
every depth `d`, `yv` returns a block scalar beginning with `|` in
which every non-empty line of the string is indented by exactly
`2*d` spaces, while empty source lines are emitted as entirely empty
lines (with no indentation). -/
theorem c2_block_scalar_amended (s : String) (d : Nat)
    (h : s.data.contains '\n' = true) :
    yv (.vStr s) d
      = .vStr ("|" ++ concatAll ((pySplitlines s).map
          (fun l => "\n" ++ (if l.isEmpty then "" else indentOf d ++ l)))) ∧
    (pyStr (yv (.vStr s) d)).data.head? = some '|' := by
  have e : yv (.vStr s) d
      = .vStr ("|" ++ concatAll ((pySplitlines s).map
          (fun l => "\n" ++ (if l.isEmpty then "" else indentOf d ++ l)))) := by
    simp only [yv, h]
    rw [foldl_block_concat (fun l => if l.isEmpty then "" else indentOf d ++ l)
        (pySplitlines s) ""]
    rw [string_empty_append]
    simp
  refine ⟨e, ?_⟩
  rw [e]
  show ("|" ++ _).data.head? = some '|'
  rw [string_data_append]
  rfl

/-- Witness for C2 (amended) at the concrete input `"a\nb"`, depth 1. -/
theorem c2_block_scalar_amended_witness :
    ("a\nb" : String).data.contains '\n' = true ∧
    yv (.vStr "a\nb") 1
      = .vStr ("|" ++ concatAll ((pySplitlines "a\nb").map
          (fun l => "\n" ++ (if l.isEmpty then "" else indentOf 1 ++ l)))) :=
  ⟨by decide, (c2_block_scalar_amended "a\nb" 1 (by decide)).1⟩

/-- C1 counterexample: the claim says the Rust dependency cache step's
key incorporates the target name, Rust cross-target and OS, so that two
Targets differing in those never share a cache key; but the
`ubuntu:20.04` and `windows` catalog entries differ in name, Rust
cross-target and OS and still get the identical cache key
`cargo-deps-$\x7b\x7b hashFiles('**/Cargo.lock') \x7d\x7d`. -/
theorem c1_rust_cache_key_counterexample :
    targetUbuntu2004.name ≠ targetWindows.name ∧
    targetUbuntu2004.rust_target ≠ targetWindows.rust_target ∧
    targetUbuntu2004.os ≠ targetWindows.os ∧
    rustCacheKeyOf targetUbuntu2004 "stable" = rustCacheKeyOf targetWindows "stable" ∧
    rustCacheKeyOf targetUbuntu2004 "stable" = some (.vStr rustCargoDepsKey) := by
  refine ⟨by decide, by decide, by decide, by decide, by decide⟩

/-- C1 (amended): for every Target (and toolchain), the Rust dependency
cache step emitted by `install_rust` with caching enabled uses the
fixed key `cargo-deps-$\x7b\x7b hashFiles('**/Cargo.lock') \x7d\x7d`,
which depends only on the Cargo lockfile hash and is therefore shared
by all targets; the `key_prefix` incorporating target name, Rust
cross-target and runner OS is computed but never used. -/
theorem c1_rust_cache_key_amended (t : Target) (toolchain : String) :
    rustCacheKeyOf t toolchain = some (.vStr rustCargoDepsKey) := by
  unfold rustCacheKeyOf Target.install_rust
  by_cases h1 : strContains t.name "centos7"
  · simp [h1, RunStep, SccacheStep, CacheStep, RunStepCond, ActionStep,
      Step.step_id, List.find?]
    decide
  · by_cases h2 : strContains t.name "macos"
    · simp [h1, h2, RunStep, SccacheStep, CacheStep, RunStepCond, ActionStep,
        Step.step_id, List.find?]
      decide
    · simp [h1, h2, RunStep, SccacheStep, CacheStep, RunStepCond, ActionStep,
        Step.step_id, List.find?]
      decide

/-- C4: for every Target in the catalog, `pull_request` returns a build
job containing no release-publishing or tap-update step (no step of
`update_homebrew_tap`, `create_winget_pr`, `create_flathub_pr`,
`upload_asset_nightly` or `upload_asset_tag`), and a `None` uploader
job. -/
theorem c4_pull_request_no_publish : TARGETS.all pr_has_no_publish = true := by
  decide

/-- C6: `Target.__init__` derives the name deterministically -- the
container string when a (truthy) container is given, otherwise the os
string, and an explicitly given (non-empty) name wins -- and the stored
name never contains a colon. -/
theorem c6_name_derivation (os : String) (container : Option String)
    (bg : Bool) (rt : Option String) (co ai it : Bool) :
    (pyTruthy container = true →
      (Target.make none os container bg rt co ai it).name
        = stripColons (container.getD os)) ∧
    (pyTruthy container = false →
      (Target.make none os container bg rt co ai it).name = stripColons os) ∧
    (∀ n : String, n.isEmpty = false →
      (Target.make (some n) os container bg rt co ai it).name = stripColons n) ∧
    (∀ nm : Option String,
      ':' ∉ (Target.make nm os container bg rt co ai it).name.data) := by
  refine ⟨?_, ?_, ?_, ?_⟩
  · intro h; simp [Target.make, h]
  · intro h; simp [Target.make, h]
  · intro n h; simp [Target.make, h]
  · intro nm
    cases nm <;> simp [Target.make, stripColons]

/-- Witness for C6 at the `ubuntu:20.04` catalog entry's arguments. -/
theorem c6_name_derivation_witness :
    pyTruthy (some "ubuntu:20.04") = true ∧
    (Target.make none "ubuntu-latest" (some "ubuntu:20.04")
        false none true true false).name
      = stripColons ((some "ubuntu:20.04").getD "ubuntu-latest") :=
  ⟨by decide,
   (c6_name_derivation "ubuntu-latest" (some "ubuntu:20.04")
      false none true true false).1 (by decide)⟩

/-- C9: the capability predicates `uses_yum`, `uses_apt`, `uses_apk`,
`uses_zypper` and `needs_sudo` are pure total functions of the Target's
static fields: they are `Bool`-valued for every name string (so they
never raise -- in particular they never dereference a `None`
container, only its truthiness), and they agree on any two targets
agreeing on `name` and on container truthiness. -/
theorem c9_predicates_pure (t₁ t₂ : Target)
    (hn : t₁.name = t₂.name)
    (hc : pyTruthy t₁.container = pyTruthy t₂.container) :
    t₁.uses_yum = t₂.uses_yum ∧ t₁.uses_apt = t₂.uses_apt ∧
    t₁.uses_apk = t₂.uses_apk ∧ t₁.uses_zypper = t₂.uses_zypper ∧
    t₁.needs_sudo = t₂.needs_sudo := by
  simp [Target.uses_yum, Target.uses_apt, Target.uses_apk,
    Target.uses_zypper, Target.needs_sudo, hn, hc]

/-- Witness for C9: a containerless target and an empty-container
target with the same name agree on every capability predicate. -/
theorem c9_predicates_pure_witness :
    (Target.make (some "fedora38") "ubuntu-latest" none
        false none false false false).name
      = (Target.make (some "fedora38") "macos-latest" (some "")
          false none false false false).name ∧
    pyTruthy (Target.make (some "fedora38") "ubuntu-latest" none
        false none false false false).container
      = pyTruthy (Target.make (some "fedora38") "macos-latest" (some "")
          false none false false false).container ∧
    (Target.make (some "fedora38") "ubuntu-latest" none
        false none false false false).uses_yum
      = (Target.make (some "fedora38") "macos-latest" (some "")
          false none false false false).uses_yum :=
  ⟨by decide, by decide,
   (c9_predicates_pure _ _ (by decide) (by decide)).1⟩

/-- C10: for a Target whose container is `None` but whose name makes
`uses_yum`, `uses_apk` or `uses_zypper` true, `install_curl` raises a
`TypeError` (from the substring test on the `None` container) instead
of returning a step list -- so the step builders are not total even
though the capability predicates are. -/
theorem c10_install_curl_type_error (t : Target)
    (hc : t.container = none)
    (hy : (t.uses_yum || t.uses_apk || t.uses_zypper) = true) :
    t.install_curl = .error .typeError := by
  unfold Target.install_curl
  rw [hc]
  have h : (t.uses_yum || t.uses_apk || t.uses_zypper
      || (t.uses_apt && pyTruthy (none : Option String))) = true := by
    simp only [Bool.or_eq_true] at hy ⊢
    tauto
  rw [if_pos h]
  rfl

/-- Witness for C10: a containerless target named `fedora`. -/
theorem c10_install_curl_type_error_witness :
    (Target.make (some "fedora") "ubuntu-latest" none
        false none false false false).container = none ∧
    ((Target.make (some "fedora") "ubuntu-latest" none
        false none false false false).uses_yum
      || (Target.make (some "fedora") "ubuntu-latest" none
          false none false false false).uses_apk
      || (Target.make (some "fedora") "ubuntu-latest" none
          false none false false false).uses_zypper) = true ∧
    (Target.make (some "fedora") "ubuntu-latest" none
        false none false false false).install_curl = .error .typeError :=
  ⟨by decide, by decide,
   c10_install_curl_type_error _ (by decide) (by decide)⟩

/-- C8: for every Target with `bootstrap_git = True` (whose
`install_curl` returns a step list), `prep_environment` contains the
git cache step -- whose key contains both the target name and the
literal git version `2.26.2` -- strictly before the checkout step. -/
theorem c8_git_cache_before_checkout (t : Target) (curl : List Step)
    (hb : t.bootstrap_git = true) (hc : t.install_curl = .ok curl) :
    t.prep_environment
      = .ok (t.prep_before_git
          ++ gitCacheStep t
            :: (t.prep_between_git_and_checkout curl
                ++ CheckoutStep true t.container :: t.prep_after_checkout)) ∧
    t.name.data <:+: (t.name ++ "-git-" ++ GIT_VERS).data ∧
    GIT_VERS.data <:+: (t.name ++ "-git-" ++ GIT_VERS).data := by
  refine ⟨?_,
    ⟨[], ("-git-" ++ GIT_VERS).data, by
      simp [string_data_append, List.append_assoc]⟩,
    ⟨(t.name ++ "-git-").data, [], by
      simp [string_data_append, List.append_assoc]⟩⟩
  unfold Target.prep_environment
  rw [hc]
  simp [Target.install_git, hb, Target.checkout, Target.prep_before_git,
    Target.prep_between_git_and_checkout, Target.prep_after_checkout,
    List.append_assoc]

/-- Witness for C8 at the `debian:8.11` bootstrap-git target. -/
theorem c8_git_cache_before_checkout_witness :
    targetDebian8.bootstrap_git = true ∧
    targetDebian8.install_curl
      = .ok [RunStep "Install curl" "apt-get install -y curl"] ∧
    targetDebian8.prep_environment
      = .ok (targetDebian8.prep_before_git
          ++ gitCacheStep targetDebian8
            :: (targetDebian8.prep_between_git_and_checkout
                  [RunStep "Install curl" "apt-get install -y curl"]
                ++ CheckoutStep true targetDebian8.container
                  :: targetDebian8.prep_after_checkout)) :=
  ⟨by decide, by decide,
   (c8_git_cache_before_checkout targetDebian8
      [RunStep "Install curl" "apt-get install -y curl"]
      (by decide) (by decide)).1⟩

theorem genAll_names : namesCheck = true := by decide

theorem writeAll_not_mem (files : List (String × String)) (n : String) :
    n ∉ files.map Prod.fst → ∀ fs : FS, writeAll fs files n = fs n := by
  induction files with
  | nil => intro _ fs; rfl
  | cons p rest ih =>
    intro h fs
    simp only [List.map_cons, List.mem_cons] at h
    push_neg at h
    have step : writeAll fs (p :: rest) = writeAll (fsWrite fs p.1 p.2) rest := rfl
    rw [step, ih h.2]
    simp [fsWrite, h.1]

theorem writeAll_mem_isSome (files : List (String × String)) (n : String) :
    n ∈ files.map Prod.fst → ∀ fs : FS, (writeAll fs files n).isSome = true := by
  induction files with
  | nil => intro h; simp at h
  | cons p rest ih =>
    intro h fs
    have step : writeAll fs (p :: rest) = writeAll (fsWrite fs p.1 p.2) rest := rfl
    rw [step]
    by_cases hr : n ∈ rest.map Prod.fst
    · exact ih hr (fsWrite fs p.1 p.2)
    · have hn : n = p.1 := by
        simp only [List.map_cons, List.mem_cons] at h
        tauto
      rw [writeAll_not_mem rest n hr (fsWrite fs p.1 p.2)]
      simp [fsWrite, hn]

theorem remove_writeAll (files : List (String × String))
    (hall : ∀ m ∈ files.map Prod.fst, matchesGenName m = true) (g : FS) :
    remove_gen_actions (writeAll g files) = remove_gen_actions g := by
  funext m
  by_cases hm : matchesGenName m = true
  · simp [remove_gen_actions, hm]
  · have hmem : m ∉ files.map Prod.fst := fun hmem => hm (hall m hmem)
    simp [remove_gen_actions, hm, writeAll_not_mem files m hmem g]

theorem remove_remove (fs : FS) :
    remove_gen_actions (remove_gen_actions fs) = remove_gen_actions fs := by
  funext m
  by_cases hm : matchesGenName m = true <;> simp [remove_gen_actions, hm]

/-- C5: one full generation run (stale-file removal followed by the
pull-request, continuous and tag passes) succeeds; running it twice
over the unchanged catalog produces the identical filesystem
(byte-identical files), and a glob-matching file exists after a run
exactly when its name is one of the names derived from the current
catalog -- so no stale file from a removed target survives. -/
theorem c5_idempotent_no_stale :
    ∃ run : FS → FS,
      fullRun = .ok run ∧
      (∀ fs, run (run fs) = run fs) ∧
      (∀ fs n, (matchesGenName n && (run fs n).isSome)
        = decide (n ∈ expectedNames)) := by
  have hnc := genAll_names
  unfold namesCheck at hnc
  cases hga : genAll with
  | error e => rw [hga] at hnc; exact absurd hnc (by simp)
  | ok files =>
    rw [hga] at hnc
    have hnames : files.map Prod.fst = expectedNames := eq_of_beq hnc
    have hall : ∀ m ∈ files.map Prod.fst, matchesGenName m = true := by
      rw [hnames]; decide
    refine ⟨fun fs => writeAll (remove_gen_actions fs) files, ?_, ?_, ?_⟩
    · unfold fullRun; rw [hga]
    · intro fs
      show writeAll
        (remove_gen_actions (writeAll (remove_gen_actions fs) files)) files = _
      rw [remove_writeAll files hall, remove_remove]
    · intro fs n
      by_cases hmem : n ∈ files.map Prod.fst
      · have h1 : matchesGenName n = true := hall n hmem
        have h2 := writeAll_mem_isSome files n hmem (remove_gen_actions fs)
        rw [hnames] at hmem
        simp [h1, h2, hmem]
      · have h2 : decide (n ∈ expectedNames) = false := by
          rw [← hnames]; simp [hmem]
        rw [h2]
        by_cases h1 : matchesGenName n = true
        · have h3 : writeAll (remove_gen_actions fs) files n
              = remove_gen_actions fs n := writeAll_not_mem files n hmem _
          have h4 : remove_gen_actions fs n = none := by
            simp [remove_gen_actions, h1]
          simp [h1, h3, h4]
        · have h1' : matchesGenName n = false := by simpa using h1
          simp [h1']

/-- C7: generation never mutates the catalog entries. `deepcopy` is a
full structural copy (equal, as a value, to its argument), each pass
maps `processOne` over the unchanged `TARGETS` list (so the catalog
entries keep their constructed fields: empty `env`, `is_tag = false`),
and the `BUILD_REASON`/`is_tag` side effects of one pass are visible
only on that pass's clone, never on the targets the other passes
consume. -/
theorem c7_no_cross_kind_leak :
    (∀ t : Target, deepcopy t = t) ∧
    TARGETS.all (fun t => t.env.isEmpty && !t.is_tag) = true ∧
    TARGETS.all continuousLeakCheck = true := by
  refine ⟨fun t => ?_, by decide, by decide⟩
  cases t
  rfl
